import Mathlib

/-!
Shallow embedding of the firmware in `src/worldwide_weather_watcher.ino`
(weather-station firmware: mode state machine, non-blocking scheduler,
prioritized error LED, SD log rotation, EEPROM-backed settings, serial
command dispatcher).  Machine integers are modelled as `Nat` with explicit
reductions modulo `2 ^ 32` (`unsigned long`), `2 ^ 16` (`uint16_t`) and
`2 ^ 8` (`uint8_t`) where overflow can occur.  Sensor readings carried by
`float` are modelled as `Option ℚ`, `none` standing for `NAN`.
-/

namespace WWW

/-- `2 ^ 32`, the modulus of Arduino `unsigned long` arithmetic. -/
def U32 : Nat := 4294967296

/-- Wrap-around subtraction `a - b` as computed on `unsigned long`. -/
def sub32 (a b : Nat) : Nat := (a % U32 + U32 - b % U32) % U32

/-- Colors of the chainable RGB LED, mirroring `enum LedColor`. -/
inductive LedColor where
  | off
  | g
  | b
  | y
  | o
  | r
  | w
deriving DecidableEq

/-- Operating modes, mirroring `enum Mode`. -/
inductive Mode where
  | standard
  | economique
  | maintenance
  | configuration
deriving DecidableEq

/-- `ERR_RTC = 1 << 0`. -/
def ERR_RTC : Nat := 1

/-- `ERR_SENSOR = 1 << 2`. -/
def ERR_SENSOR : Nat := 4

/-- `ERR_INCOH = 1 << 3`. -/
def ERR_INCOH : Nat := 8

/-- `ERR_SD_FULL = 1 << 4`. -/
def ERR_SD_FULL : Nat := 16

/-- `ERR_SD_RW = 1 << 5`. -/
def ERR_SD_RW : Nat := 32

/-- Bitmask of all five defined error flags. -/
def ERR_ALL : Nat := ERR_RTC ||| ERR_SENSOR ||| ERR_INCOH ||| ERR_SD_FULL ||| ERR_SD_RW

/-- `gErrors &= ~e` on the `uint8_t` error register, for a single-bit `e`. -/
def clearBit (g e : Nat) : Nat := g &&& (255 - e)

/-- State touched by `updateErrorLED`: the global error register and LED
globals, plus the function's `static` locals and the color last handed to
`setLed` (the visible indicator color). -/
structure LedState where
  gErrors : Nat
  baseColor : LedColor
  lastNoErr : LedColor
  lastE : Nat
  cur : Nat
  ledPhase : Bool
  ledBeatMs : Nat
  led : LedColor
deriving DecidableEq

/-- The priority cascade selecting `e` in `updateErrorLED`
(`SD_RW`, then `SD_FULL`, then `RTC`, then `SENSOR`, else `INCOH`). -/
def selectErr (g : Nat) : Nat :=
  if g &&& ERR_SD_RW ≠ 0 then ERR_SD_RW
  else if g &&& ERR_SD_FULL ≠ 0 then ERR_SD_FULL
  else if g &&& ERR_RTC ≠ 0 then ERR_RTC
  else if g &&& ERR_SENSOR ≠ 0 then ERR_SENSOR
  else ERR_INCOH

/-- Short half-period `tS = 220` ms. -/
def tShort : Nat := 220

/-- Long half-period `tL = 600` ms. -/
def tLong : Nat := 600

/-- Medium half-period `tE = 360` ms. -/
def tMed : Nat := 360

/-- First pattern color `colA` (always red in the source). -/
def colA (_e : Nat) : LedColor := LedColor.r

/-- Second pattern color `colB` as assigned per selected error. -/
def colB (e : Nat) : LedColor :=
  if e = ERR_RTC then LedColor.b
  else if e = ERR_SENSOR then LedColor.g
  else if e = ERR_INCOH then LedColor.g
  else LedColor.w

/-- First half-period `halfA` as assigned per selected error. -/
def halfA (e : Nat) : Nat :=
  if e = ERR_RTC then tMed
  else if e = ERR_SENSOR then tMed
  else if e = ERR_INCOH then tShort
  else if e = ERR_SD_RW then tShort
  else tMed

/-- Second half-period `halfB` as assigned per selected error. -/
def halfB (e : Nat) : Nat :=
  if e = ERR_RTC then tMed
  else if e = ERR_SENSOR then tMed
  else if e = ERR_INCOH then tLong
  else if e = ERR_SD_RW then tLong
  else tMed

/-- One call of `updateErrorLED` at time `now` (value of `millis()`). -/
def updateErrorLED (now : Nat) (s : LedState) : LedState :=
  if s.gErrors = 0 then
    if s.lastNoErr ≠ s.baseColor then
      { s with led := s.baseColor, lastNoErr := s.baseColor }
    else s
  else
    let e := selectErr s.gErrors
    if e ≠ s.lastE then
      { s with lastE := e, ledPhase := false, ledBeatMs := now % U32,
               cur := halfA e, led := colA e }
    else if sub32 now s.ledBeatMs ≥ s.cur then
      let ph := ! s.ledPhase
      { s with ledBeatMs := now % U32, ledPhase := ph,
               led := if ph then colB e else colA e,
               cur := if ph then halfB e else halfA e }
    else s

/-- Rank of an error flag in the fixed priority order
`SD_RW > SD_FULL > RTC > SENSOR > INCOH` (higher rank wins). -/
def errPriority (e : Nat) : Nat :=
  if e = ERR_SD_RW then 5
  else if e = ERR_SD_FULL then 4
  else if e = ERR_RTC then 3
  else if e = ERR_SENSOR then 2
  else if e = ERR_INCOH then 1
  else 0

/-- `intStd()`: Standard-mode interval in ms, `cfg.logMin * 1000UL`
(`logMin` is a `uint16_t`, so the product fits an `unsigned long`). -/
def intStd (logMin : Nat) : Nat := (logMin % 65536) * 1000

/-- `intEco()`: Economic-mode interval in ms, `cfg.logMin * 2000UL`. -/
def intEco (logMin : Nat) : Nat := (logMin % 65536) * 2000

/-- `tickStd` on its `static unsigned long t`: decides whether a cycle
fires at time `now` and returns the updated timestamp with the decision. -/
def tickStd (logMin now t : Nat) : Nat × Bool :=
  if t = 0 ∨ sub32 now t ≥ intStd logMin then (now % U32, true) else (t, false)

/-- `tickEco` on its own `static unsigned long t`. -/
def tickEco (logMin now t : Nat) : Nat × Bool :=
  if t = 0 ∨ sub32 now t ≥ intEco logMin then (now % U32, true) else (t, false)

/-- The scheduler-visible state: the current mode and the two `static`
last-fired timestamps (one inside `tickStd`, one inside `tickEco`). -/
structure SchedState where
  mode : Mode
  tStd : Nat
  tEco : Nat
deriving DecidableEq

/-- Effect of `enterMode` on the scheduler state: only `modeCur` changes;
the `static` timestamps inside `tickStd` / `tickEco` are not touched. -/
def enterModeSched (m : Mode) (s : SchedState) : SchedState :=
  { s with mode := m }

/-- The `switch (modeCur)` dispatch in `loop()`: run the active mode's tick
and report whether `logOnce` fired (Maintenance and Configuration ticks are
empty). -/
def schedTick (logMin now : Nat) (s : SchedState) : SchedState × Bool :=
  match s.mode with
  | Mode.standard =>
      let r := tickStd logMin now s.tStd
      ({ s with tStd := r.1 }, r.2)
  | Mode.economique =>
      let r := tickEco logMin now s.tEco
      ({ s with tEco := r.1 }, r.2)
  | _ => (s, false)

/-- An open log file: its index (the `%03u` part of `LOGnnn.CSV`) and its
current size in bytes. -/
structure FileInfo where
  idx : Nat
  size : Nat
deriving DecidableEq

/-- SD-side state: the current file handle (`none` when `logFile` is
closed), the next file index `logIdx`, and the error register. -/
structure SdState where
  file : Option FileInfo
  logIdx : Nat
  errors : Nat
deriving DecidableEq

/-- `openNewLog()`: closes any open file, names `LOG%03u.CSV` from
`logIdx` and post-increments it, then opens.  `ok` tells whether
`SD.open` succeeds; `initSz` is the size the freshly opened handle starts
with (`0` for a file that did not exist yet); a header line of `hdr` bytes
is written iff that size is `0`.  On failure `ERR_SD_FULL` is raised, on
success it is cleared. -/
def openNewLog (ok : Bool) (initSz hdr : Nat) (s : SdState) : SdState :=
  if ok then
    { file := some ⟨s.logIdx, if initSz = 0 then hdr else initSz⟩,
      logIdx := s.logIdx + 1,
      errors := clearBit s.errors ERR_SD_FULL }
  else
    { file := none, logIdx := s.logIdx + 1, errors := s.errors ||| ERR_SD_FULL }

/-- `rotateIfNeed()`: if a file is open and its size has reached
`cfg.maxBytes`, switch to a new file via `openNewLog`. -/
def rotateIfNeed (maxB : Nat) (ok : Bool) (initSz hdr : Nat) (s : SdState) : SdState :=
  match s.file with
  | some f => if f.size ≥ maxB then openNewLog ok initSz hdr s else s
  | none => s

/-- The SD section at the end of `logOnce()`: with the card present, if a
file is open, append one record of `recLen` bytes, flush, call
`rotateIfNeed`, and clear `ERR_SD_RW`; with no open file (or no card) just
raise `ERR_SD_RW`.  No branch reopens a file. -/
def logOnceSD (haveSD : Bool) (recLen maxB : Nat) (ok : Bool) (initSz hdr : Nat)
    (s : SdState) : SdState :=
  if haveSD then
    match s.file with
    | some f =>
        let s1 : SdState := { s with file := some ⟨f.idx, f.size + recLen⟩ }
        let s2 := rotateIfNeed maxB ok initSz hdr s1
        { s2 with errors := clearBit s2.errors ERR_SD_RW }
    | none => { s with errors := s.errors ||| ERR_SD_RW }
  else { s with errors := s.errors ||| ERR_SD_RW }

/-- The `EJECT` command body: flush and close the current handle; nothing
else changes and no replacement file is opened. -/
def ejectCmd (s : SdState) : SdState := { s with file := none }

/-- The persisted `struct Settings`.  On the AVR target the struct is
packed (alignment 1, little-endian): 2 + 2 + 4 + 1 + 2 = 11 bytes. -/
structure Settings where
  logMin : Nat
  toutSec : Nat
  maxBytes : Nat
  enMask : Nat
  crc : Nat
deriving DecidableEq

/-- `crc16(const Settings &s)`: sums the first `sizeof(Settings) - 2 = 9`
bytes of the packed little-endian struct (both 16-bit fields, the 32-bit
field, and the mask byte — everything but `crc` itself) in a `uint16_t`
accumulator, then XORs the salt `0xA55A`. -/
def crc16 (s : Settings) : Nat :=
  (s.logMin % 256 + s.logMin / 256 % 256 +
   s.toutSec % 256 + s.toutSec / 256 % 256 +
   s.maxBytes % 256 + s.maxBytes / 256 % 256 +
   s.maxBytes / 65536 % 256 + s.maxBytes / 16777216 % 256 +
   s.enMask % 256) % 65536 ^^^ 42330

/-- The sensor-enable mask rebuilt from the two globals
(`bit 0` for the BME280, `bit 1` for the light sensor). -/
def maskOf (enBME enLUM : Bool) : Nat :=
  (if enBME then 1 else 0) ||| (if enLUM then 2 else 0)

/-- `setDefaults()`: hard-coded defaults `DEF_LOG_MIN = 10`,
`DEF_TOUT = 3`, `DEF_MAXB = 2048`, mask from the current sensor globals,
then the integrity code recomputed over the record. -/
def setDefaults (enBME enLUM : Bool) : Settings :=
  let s0 : Settings :=
    { logMin := 10, toutSec := 3, maxBytes := 2048,
      enMask := maskOf enBME enLUM, crc := 0 }
  { s0 with crc := crc16 s0 }

/-- `saveEEPROM()`: rebuild `enMask` from the sensor globals, recompute
`crc`, and return the record written to EEPROM address 0 (the whole
struct is put at once). -/
def saveEEPROM (enBME enLUM : Bool) (cfg : Settings) : Settings :=
  let c1 := { cfg with enMask := maskOf enBME enLUM }
  { c1 with crc := crc16 c1 }

/-- Result of `loadEEPROM()`: the in-RAM `cfg`, the record written back to
EEPROM if any, and the sensor globals derived from `cfg.enMask`. -/
structure LoadResult where
  cfg : Settings
  written : Option Settings
  enBME : Bool
  enLUM : Bool
deriving DecidableEq

/-- `loadEEPROM()`: read the stored record; if its integrity code does not
match the code recomputed over the other fields, fall back to
`setDefaults()` followed by `saveEEPROM()`; finally derive the sensor
globals from the resulting mask. -/
def loadEEPROM (stored : Settings) (enBME0 enLUM0 : Bool) : LoadResult :=
  if crc16 stored ≠ stored.crc then
    let d := saveEEPROM enBME0 enLUM0 (setDefaults enBME0 enLUM0)
    { cfg := d, written := some d,
      enBME := d.enMask &&& 1 != 0, enLUM := d.enMask &&& 2 != 0 }
  else
    { cfg := stored, written := none,
      enBME := stored.enMask &&& 1 != 0, enLUM := stored.enMask &&& 2 != 0 }

/-- The two physical buttons. -/
inductive Button where
  | green
  | red
deriving DecidableEq

/-- State shared between the button ISRs and the main loop: the two press
timestamps and the four mode-transition request flags, plus the current
mode the ISRs read. -/
structure IsrState where
  tV : Nat
  tR : Nat
  modeCur : Mode
  fEco : Bool
  fMaint : Bool
  fStd : Bool
  fQuitM : Bool
deriving DecidableEq

/-- `isrV()`: on a falling edge (`pressed`) record `millis()`; on a rising
edge, if the stored timestamp is nonzero and the held time reaches
`HOLD_MS = 2000`, request Standard when currently Economic, else request
Economic; then clear the timestamp. -/
def isrV (pressed : Bool) (now : Nat) (s : IsrState) : IsrState :=
  if pressed then { s with tV := now % U32 }
  else
    if s.tV ≠ 0 ∧ sub32 now s.tV ≥ 2000 then
      if s.modeCur = Mode.economique then { s with fStd := true, tV := 0 }
      else { s with fEco := true, tV := 0 }
    else { s with tV := 0 }

/-- `isrR()`: same shape; a long press requests quit-maintenance when in
Maintenance, else requests Maintenance. -/
def isrR (pressed : Bool) (now : Nat) (s : IsrState) : IsrState :=
  if pressed then { s with tR := now % U32 }
  else
    if s.tR ≠ 0 ∧ sub32 now s.tR ≥ 2000 then
      if s.modeCur = Mode.maintenance then { s with fQuitM := true, tR := 0 }
      else { s with fMaint := true, tR := 0 }
    else { s with tR := 0 }

/-- A full press/release pair on one button: the press edge at time `t0`,
the release edge at time `t0 + d` (held duration `d`). -/
def pressRelease (b : Button) (t0 d : Nat) (s : IsrState) : IsrState :=
  match b with
  | Button.green => isrV false (t0 + d) (isrV true t0 s)
  | Button.red => isrR false (t0 + d) (isrR true t0 s)

/-- The four transition-request flags of a state, as one tuple
`(fStd, fEco, fMaint, fQuitM)`. -/
def flagsOf (s : IsrState) : Bool × Bool × Bool × Bool :=
  (s.fStd, s.fEco, s.fMaint, s.fQuitM)

/-- `readBME()`: with the sensor absent or disabled all three channels are
`NAN` (`none`); otherwise the driver values `t`, `h`, `p` are returned. -/
def readBME (present en : Bool) (t h p : ℚ) : Option ℚ × Option ℚ × Option ℚ :=
  if !present || !en then (none, none, none) else (some t, some h, some p)

/-- `readLUM()`: with the channel disabled the value is `NAN` (`none`);
otherwise the raw `analogRead` value `l` is returned. -/
def readLUM (en : Bool) (l : ℚ) : Option ℚ :=
  if !en then none else some l

/-- The four channel values read at the top of `logOnce()`. -/
structure Readings where
  t : Option ℚ
  h : Option ℚ
  p : Option ℚ
  l : Option ℚ
deriving DecidableEq

/-- The readings produced by one acquisition: BME280 channels through
`readBME`, light through `readLUM`. -/
def acquireReadings (bmePresent enBME enLUM : Bool) (t h p l : ℚ) : Readings :=
  let bme := readBME bmePresent enBME t h p
  { t := bme.1, h := bme.2.1, p := bme.2.2, l := readLUM enLUM l }

/-- One plausibility test of `logOnce()`:
`!isnan(v) && (v < lo || v > hi)`. -/
def outOfRange (v : Option ℚ) (lo hi : ℚ) : Bool :=
  match v with
  | none => false
  | some x => decide (x < lo) || decide (hi < x)

/-- The `incoh` flag computed by `logOnce()` over the four channels, with
the fixed envelopes `[-40, 85]`, `[0, 100]`, `[300, 1100]`, `[0, 1023]`. -/
def incohOf (r : Readings) : Bool :=
  outOfRange r.t (-40) 85 || outOfRange r.h 0 100 ||
  outOfRange r.p 300 1100 || outOfRange r.l 0 1023

/-- The error-register updates of `logOnce()` before the SD section:
raise `ERR_SENSOR` when the BME is enabled but absent, then raise
`ERR_INCOH` when `incoh` holds and clear it otherwise. -/
def logOnceErrors (enBME bmePresent : Bool) (r : Readings) (g : Nat) : Nat :=
  let g1 := if enBME && !bmePresent then g ||| ERR_SENSOR else g
  if incohOf r then g1 ||| ERR_INCOH else clearBit g1 ERR_INCOH

/-- `starts(s, p)`: walks `p`; a NUL-terminated `s` shorter than `p` fails
because the terminator never equals a `p` character. -/
def starts : List Char → List Char → Bool
  | _, [] => true
  | [], _ :: _ => false
  | c :: s, d :: p => if c = d then starts s p else false

/-- Value of a digit run, most significant first. -/
def natOfDigits : List Char → Nat → Nat
  | [], acc => acc
  | c :: cs, acc => natOfDigits cs (acc * 10 + (c.toNat - 48))

/-- `(uint16_t)atoi(...)`: skip whitespace, optional sign, digits, with the
16-bit accumulation and the final unsigned cast collapsed into one
reduction modulo `2 ^ 16`. -/
def atoiU16 (cs : List Char) : Nat :=
  let cs1 := cs.dropWhile Char.isWhitespace
  match cs1 with
  | '-' :: rest => (65536 - natOfDigits (rest.takeWhile Char.isDigit) 0 % 65536) % 65536
  | '+' :: rest => natOfDigits (rest.takeWhile Char.isDigit) 0 % 65536
  | _ => natOfDigits (cs1.takeWhile Char.isDigit) 0 % 65536

/-- `(uint32_t)atol(...)`: as `atoiU16` but on 32-bit `long`. -/
def atolU32 (cs : List Char) : Nat :=
  let cs1 := cs.dropWhile Char.isWhitespace
  match cs1 with
  | '-' :: rest => (U32 - natOfDigits (rest.takeWhile Char.isDigit) 0 % U32) % U32
  | '+' :: rest => natOfDigits (rest.takeWhile Char.isDigit) 0 % U32
  | _ => natOfDigits (cs1.takeWhile Char.isDigit) 0 % U32

/-- One `%Nd` conversion of `sscanf`: skip whitespace, optional sign, then
at least one digit, reading at most `w` characters including the sign. -/
def scanInt (w : Nat) (cs : List Char) : Option (Int × List Char) :=
  let cs1 := cs.dropWhile Char.isWhitespace
  match cs1 with
  | '-' :: rest =>
      let ds := (rest.takeWhile Char.isDigit).take (w - 1)
      if ds = [] then none
      else some (-(natOfDigits ds 0 : Int), rest.drop ds.length)
  | '+' :: rest =>
      let ds := (rest.takeWhile Char.isDigit).take (w - 1)
      if ds = [] then none
      else some ((natOfDigits ds 0 : Int), rest.drop ds.length)
  | _ =>
      let ds := (cs1.takeWhile Char.isDigit).take w
      if ds = [] then none
      else some ((natOfDigits ds 0 : Int), cs1.drop ds.length)

/-- A literal character in an `sscanf` format. -/
def expectChar (c : Char) (cs : List Char) : Option (List Char) :=
  match cs with
  | d :: rest => if d = c then some rest else none
  | [] => none

/-- `sscanf(s, "%4d-%2d-%2d %2d:%2d:%2d", ...)` of the `DATE=` command;
`some` iff all six fields match. -/
def parseDate (cs : List Char) : Option (Int × Int × Int × Int × Int × Int) := do
  let (y, cs) ← scanInt 4 cs
  let cs ← expectChar '-' cs
  let (mo, cs) ← scanInt 2 cs
  let cs ← expectChar '-' cs
  let (d, cs) ← scanInt 2 cs
  let cs := cs.dropWhile Char.isWhitespace
  let (h, cs) ← scanInt 2 cs
  let cs ← expectChar ':' cs
  let (mi, cs) ← scanInt 2 cs
  let cs ← expectChar ':' cs
  let (se, _) ← scanInt 2 cs
  pure (y, mo, d, h, mi, se)

/-- `sscanf(s + 8, "%3[^\x3a]:%3s", w, val)` of the `CAPTEUR=` command:
up to three non-colon characters, a literal colon, then up to three
non-whitespace characters (after skipping whitespace); `some` iff both
conversions succeed. -/
def scanCapteur (cs : List Char) : Option (List Char × List Char) :=
  let w := (cs.takeWhile (fun c => !(c == ':'))).take 3
  if w = [] then none
  else
    match cs.drop w.length with
    | ':' :: rest =>
        let rest1 := rest.dropWhile Char.isWhitespace
        let v := (rest1.takeWhile (fun c => !c.isWhitespace)).take 3
        if v = [] then none else some (w, v)
    | _ => none

/-- Observable actions of the command dispatcher. -/
inductive CmdEffect where
  | msg (text : String)
  | showHelp
  | doLogOnce
  | doEject
  | rtcAdjust (y mo d h mi se : Int)
deriving DecidableEq

/-- The globals the command dispatcher touches: the settings, the two
sensor-enable flags, the last record written to EEPROM, and RTC presence. -/
structure CmdState where
  cfg : Settings
  enBME : Bool
  enLUM : Bool
  eeprom : Option Settings
  haveRTC : Bool
deriving DecidableEq

/-- Store the record produced by `saveEEPROM()` as both the new `cfg` and
the EEPROM content. -/
def persist (st : CmdState) (c : Settings) : CmdState :=
  let w := saveEEPROM st.enBME st.enLUM c
  { st with cfg := w, eeprom := some w }

/-- `handleCmdLine()`: dispatch one complete command line (the buffer
contents, without the terminating newline). -/
def handleCmdLine (buf : List Char) (st : CmdState) : CmdState × List CmdEffect :=
  let s := buf.dropWhile (fun c => c == ' ')
  if s = [] then (st, [])
  else if s = "HELP".toList then (st, [CmdEffect.showHelp])
  else if s = "VERSION".toList then (st, [CmdEffect.msg "WWW-Pretty 1.0"])
  else if starts s "LOG_INTERVAL=".toList then
    (persist { st with cfg := { st.cfg with logMin := atoiU16 (s.drop 13) } }
       { st.cfg with logMin := atoiU16 (s.drop 13) },
     [CmdEffect.msg "OK LOG_INTERVAL"])
  else if starts s "TIMEOUT=".toList then
    (persist { st with cfg := { st.cfg with toutSec := atoiU16 (s.drop 8) } }
       { st.cfg with toutSec := atoiU16 (s.drop 8) },
     [CmdEffect.msg "OK TIMEOUT"])
  else if starts s "FILE_MAX_SIZE=".toList then
    (persist { st with cfg := { st.cfg with maxBytes := atolU32 (s.drop 14) } }
       { st.cfg with maxBytes := atolU32 (s.drop 14) },
     [CmdEffect.msg "OK FILE_MAX_SIZE"])
  else if starts s "CAPTEUR=".toList then
    match scanCapteur (s.drop 8) with
    | some (w, v) =>
        let isOn := match v.head? with
          | some c => c == 'o' || c == 'O'
          | none => false
        let st1 :=
          match w.head? with
          | some c =>
              if c == 'B' || c == 'b' then { st with enBME := isOn }
              else if c == 'L' || c == 'l' then { st with enLUM := isOn }
              else st
          | none => st
        (persist st1 st1.cfg, [CmdEffect.msg "OK CAPTEUR"])
    | none => (st, [])
  else if starts s "DATE=".toList then
    if !st.haveRTC then (st, [CmdEffect.msg "ERR RTC"])
    else
      match parseDate (s.drop 5) with
      | some (y, mo, d, h, mi, se) =>
          (st, [CmdEffect.rtcAdjust y mo d h mi se, CmdEffect.msg "OK DATE"])
      | none => (st, [CmdEffect.msg "ERR DATE"])
  else if s = "READ".toList then (st, [CmdEffect.doLogOnce])
  else if s = "EJECT".toList then (st, [CmdEffect.doEject, CmdEffect.msg "OK EJECT"])
  else if s = "RESET".toList then
    (persist st (setDefaults st.enBME st.enLUM), [CmdEffect.msg "OK RESET"])
  else (st, [CmdEffect.msg "Commande inconnue. HELP"])

/-- `handleCmdChar()`: ignore CR, dispatch the buffer on LF and clear it,
otherwise append to the 96-byte buffer while room remains. -/
def handleCmdChar (c : Char) (buf : List Char) (st : CmdState) :
    List Char × CmdState × List CmdEffect :=
  if c = '\r' then (buf, st, [])
  else if c = '\n' then
    let r := handleCmdLine buf st
    ([], r.1, r.2)
  else if buf.length < 95 then (buf ++ [c], st, [])
  else (buf, st, [])

/-- State of the serial/timeout fragment of `loop()`: the current mode,
`lastCmdMs`, the command buffer and the dispatcher globals. -/
structure LoopState where
  mode : Mode
  lastCmdMs : Nat
  buf : List Char
  cmd : CmdState
deriving DecidableEq

/-- The `while (Serial.available())` drain: each received character goes
through `handleCmdChar` and refreshes `lastCmdMs` with `millis()`. -/
def feedChars : List Char → Nat → LoopState → LoopState × List CmdEffect
  | [], _, ls => (ls, [])
  | c :: cs, now, ls =>
      let r := handleCmdChar c ls.buf ls.cmd
      let ls1 := { ls with buf := r.1, cmd := r.2.1, lastCmdMs := now % U32 }
      let rest := feedChars cs now ls1
      (rest.1, r.2.2 ++ rest.2)

/-- One `loop()` pass restricted to its serial and inactivity-timeout
steps: drain the pending characters, then, in Configuration only, force
Standard when `millis() - lastCmdMs > CFG_BACK` (`30000UL`). -/
def loopPass (chars : List Char) (now : Nat) (ls : LoopState) :
    LoopState × List CmdEffect :=
  let r := feedChars chars now ls
  let ls1 := r.1
  let ls2 :=
    if ls1.mode = Mode.configuration ∧ sub32 now ls1.lastCmdMs > 30000 then
      { ls1 with mode := Mode.standard }
    else ls1
  (ls2, r.2)

/-! ## Shared helper lemmas -/

/-- Raising a flag makes its bit visible in the register. -/
theorem or_and_bit8 (g : Nat) : (g ||| 8) &&& 8 = 8 := by
  have h8 : (8 : Nat) = 2 ^ 3 := by norm_num
  rw [h8, Nat.and_two_pow, Nat.testBit_or]
  simp
  exact Or.inr (by decide)

/-- Raising `ERR_SD_RW` makes its bit visible in the register. -/
theorem or_and_bit32 (g : Nat) : (g ||| 32) &&& 32 = 32 := by
  have h : (32 : Nat) = 2 ^ 5 := by norm_num
  rw [h, Nat.and_two_pow, Nat.testBit_or]
  simp
  exact Or.inr (by decide)

/-- Clearing `ERR_INCOH` hides its bit. -/
theorem clearBit_and8 (g : Nat) : clearBit g 8 &&& 8 = 0 := by
  unfold clearBit
  rw [Nat.and_assoc]
  have h : (247 &&& 8 : Nat) = 0 := by decide
  rw [h]
  exact Nat.and_zero g

/-- `millis() - t` is `0` when `t` was just set to `millis()`. -/
theorem sub32_mod_self (a : Nat) : sub32 a (a % U32) = 0 := by
  unfold sub32 U32
  omega

/-- Wrap-around elapsed time from a stored timestamp `t0 % 2 ^ 32` to the
instant `t0 + d` is exactly `d` when `d` fits 32 bits. -/
theorem sub32_elapsed (t0 d : Nat) (hd : d < U32) : sub32 (t0 + d) (t0 % U32) = d := by
  unfold sub32 U32 at *
  omega

/-- The value `selectErr` picks out of a non-empty register over the five
defined flags is an active flag of maximal priority. -/
theorem selectErr_max : ∀ g < 64, g &&& ERR_ALL = g → g ≠ 0 →
    g &&& selectErr g ≠ 0 ∧
    ∀ f ∈ [ERR_SD_RW, ERR_SD_FULL, ERR_RTC, ERR_SENSOR, ERR_INCOH],
      g &&& f ≠ 0 → errPriority f ≤ errPriority (selectErr g) := by
  decide

/-! ## C1 — error-LED fault priority -/

/-- C1: for every non-empty fault set over the five defined flags, the
error-LED update selects the unique active fault of maximal priority in the
fixed order `SD_RW > SD_FULL > RTC > SENSOR > INCOH`, and the color it
drives is one of that fault's two pattern colors (or, mid-phase with the
same fault already selected, the state is left untouched, continuing that
same fault's pattern). -/
theorem errorLED_priority_selects_max (now : Nat) (s : LedState)
    (hne : s.gErrors ≠ 0) (hmask : s.gErrors &&& ERR_ALL = s.gErrors) :
    (s.gErrors &&& selectErr s.gErrors ≠ 0 ∧
     ∀ f ∈ [ERR_SD_RW, ERR_SD_FULL, ERR_RTC, ERR_SENSOR, ERR_INCOH],
       s.gErrors &&& f ≠ 0 → errPriority f ≤ errPriority (selectErr s.gErrors)) ∧
    ((updateErrorLED now s).led = colA (selectErr s.gErrors) ∨
     (updateErrorLED now s).led = colB (selectErr s.gErrors) ∨
     (s.lastE = selectErr s.gErrors ∧ updateErrorLED now s = s)) := by
  constructor
  · have hle : s.gErrors &&& ERR_ALL ≤ ERR_ALL := Nat.and_le_right
    have hall : ERR_ALL = 61 := by decide
    have hlt : s.gErrors < 64 := by
      rw [hmask, hall] at hle
      omega
    exact selectErr_max s.gErrors hlt hmask hne
  · by_cases h1 : selectErr s.gErrors ≠ s.lastE
    · left
      simp [updateErrorLED, hne, h1]
    · push_neg at h1
      by_cases h2 : sub32 now s.ledBeatMs ≥ s.cur
      · by_cases h3 : s.ledPhase
        · left
          simp [updateErrorLED, hne, h1, h2, h3]
        · right; left
          simp [updateErrorLED, hne, h1, h2, h3]
      · right; right
        refine ⟨h1.symm, ?_⟩
        simp [updateErrorLED, hne, h1, h2]

/-- Witness for C1: with `ERR_SD_FULL` and `ERR_SENSOR` active together,
the register is non-empty and in-mask, and the update paints the first
pattern color (red) of the Storage-full pattern. -/
theorem errorLED_priority_selects_max_witness :
    ((20 : Nat) ≠ 0 ∧ (20 : Nat) &&& ERR_ALL = 20) ∧
    (((20 : Nat) &&& selectErr 20 ≠ 0 ∧
      ∀ f ∈ [ERR_SD_RW, ERR_SD_FULL, ERR_RTC, ERR_SENSOR, ERR_INCOH],
        (20 : Nat) &&& f ≠ 0 → errPriority f ≤ errPriority (selectErr 20)) ∧
     ((updateErrorLED 0 ⟨20, LedColor.g, LedColor.off, 255, 0, false, 0, LedColor.off⟩).led =
        colA (selectErr 20) ∨
      (updateErrorLED 0 ⟨20, LedColor.g, LedColor.off, 255, 0, false, 0, LedColor.off⟩).led =
        colB (selectErr 20) ∨
      ((255 : Nat) = selectErr 20 ∧
       updateErrorLED 0 ⟨20, LedColor.g, LedColor.off, 255, 0, false, 0, LedColor.off⟩ =
         ⟨20, LedColor.g, LedColor.off, 255, 0, false, 0, LedColor.off⟩))) :=
  ⟨⟨by decide, by decide⟩,
   errorLED_priority_selects_max 0 ⟨20, LedColor.g, LedColor.off, 255, 0, false, 0, LedColor.off⟩
     (by decide) (by decide)⟩

/-! ## C3 — empty fault set and the base color -/

/-- C3: the no-fault branch fails to restore the base color after a fault
pattern ran.  Trace: with base color green, a no-fault pass paints green
and caches it; a Storage-read-write fault then paints red; once the fault
clears, the next pass leaves the LED red — `gErrors` is empty yet the
indicator does not show the mode's base color, contradicting the source's
own comment on this branch. -/
theorem errorLED_stuck_after_fault_clears :
    (updateErrorLED 100 ⟨0, LedColor.g, LedColor.off, 255, 0, false, 0, LedColor.g⟩).led
        = LedColor.g ∧
    ((updateErrorLED 300
        { updateErrorLED 200
            { updateErrorLED 100 ⟨0, LedColor.g, LedColor.off, 255, 0, false, 0, LedColor.g⟩ with
              gErrors := ERR_SD_RW } with
          gErrors := 0 }).gErrors = 0 ∧
     (updateErrorLED 300
        { updateErrorLED 200
            { updateErrorLED 100 ⟨0, LedColor.g, LedColor.off, 255, 0, false, 0, LedColor.g⟩ with
              gErrors := ERR_SD_RW } with
          gErrors := 0 }).baseColor = LedColor.g ∧
     (updateErrorLED 300
        { updateErrorLED 200
            { updateErrorLED 100 ⟨0, LedColor.g, LedColor.off, 255, 0, false, 0, LedColor.g⟩ with
              gErrors := ERR_SD_RW } with
          gErrors := 0 }).led = LedColor.r) := by
  decide

/-! ## C2 — scheduler fire condition -/

/-- `tickStd` fires exactly when its timestamp is zero or the wrap-safe
elapsed time reaches `intStd`. -/
theorem tickStd_fires (logMin now t : Nat) :
    (tickStd logMin now t).2 = true ↔ t = 0 ∨ sub32 now t ≥ intStd logMin := by
  unfold tickStd
  split <;> simp_all

/-- `tickEco` fires exactly when its timestamp is zero or the wrap-safe
elapsed time reaches `intEco`. -/
theorem tickEco_fires (logMin now t : Nat) :
    (tickEco logMin now t).2 = true ↔ t = 0 ∨ sub32 now t ≥ intEco logMin := by
  unfold tickEco
  split <;> simp_all

/-- Counterexample to C2 as stated: the last-fired timestamps are `static`
and are not reset by `enterMode`, so the first tick after RE-entering a
mode is not a tick with an unset timestamp and does not fire immediately.
Trace: in Standard a cycle fires at `t = 5`; the mode is switched to
Economic and back to Standard; the first Standard tick after re-entry, at
`t = 6`, does not fire (elapsed 1 ms < 10000 ms). -/
theorem sched_reentry_first_tick_no_fire :
    (schedTick 10 5 ⟨Mode.standard, 0, 0⟩).2 = true ∧
    (enterModeSched Mode.standard
      (enterModeSched Mode.economique (schedTick 10 5 ⟨Mode.standard, 0, 0⟩).1)).mode
        = Mode.standard ∧
    (schedTick 10 6
      (enterModeSched Mode.standard
        (enterModeSched Mode.economique (schedTick 10 5 ⟨Mode.standard, 0, 0⟩).1))).2
        = false := by
  decide

/-- C2 (amended): in Standard or Economic, a scheduler tick fires iff the
mode's last-fired timestamp is zero — which holds on the first tick since
boot, the timestamp never being reset on mode entry — or the wrap-safe
elapsed time since it reaches the effective interval, which is the
configured interval (ms) times 1 in Standard and times 2 in Economic. -/
theorem sched_fire_iff (logMin now k : Nat) (s : SchedState)
    (hk : (s.mode = Mode.standard ∧ k = 1) ∨ (s.mode = Mode.economique ∧ k = 2)) :
    ((schedTick logMin now s).2 = true ↔
      (if s.mode = Mode.standard then s.tStd else s.tEco) = 0 ∨
      sub32 now (if s.mode = Mode.standard then s.tStd else s.tEco) ≥ intStd logMin * k) := by
  rcases hk with ⟨hm, hk⟩ | ⟨hm, hk⟩ <;> subst hk
  · rw [hm]
    simp only [if_pos rfl]
    have h1 : intStd logMin * 1 = intStd logMin := Nat.mul_one _
    rw [h1]
    have : (schedTick logMin now s).2 = (tickStd logMin now s.tStd).2 := by
      unfold schedTick
      rw [hm]
    rw [this]
    exact tickStd_fires logMin now s.tStd
  · rw [hm]
    have hne : Mode.economique ≠ Mode.standard := by decide
    simp only [if_neg hne]
    have h2 : intStd logMin * 2 = intEco logMin := by
      unfold intStd intEco
      ring
    rw [h2]
    have : (schedTick logMin now s).2 = (tickEco logMin now s.tEco).2 := by
      unfold schedTick
      rw [hm]
    rw [this]
    exact tickEco_fires logMin now s.tEco

/-- Witness for C2: in Standard with an unset timestamp, the first tick
fires. -/
theorem sched_fire_iff_witness :
    (((⟨Mode.standard, 0, 0⟩ : SchedState).mode = Mode.standard ∧ 1 = 1) ∨
     ((⟨Mode.standard, 0, 0⟩ : SchedState).mode = Mode.economique ∧ 1 = 2)) ∧
    (schedTick 10 3 ⟨Mode.standard, 0, 0⟩).2 = true :=
  ⟨Or.inl ⟨rfl, rfl⟩,
   (sched_fire_iff 10 3 1 ⟨Mode.standard, 0, 0⟩ (Or.inl ⟨rfl, rfl⟩)).mpr (by decide)⟩

/-! ## C4 — eject and later acquisitions -/

/-- Counterexample to C4 as stated: after `EJECT` closes the handle, the
next acquisition does NOT reopen a log file — `logOnce` only writes when a
file is already open, and no code path reopens one.  Concretely, from an
open file of index 2 and `logIdx = 3`, eject then one acquisition leaves
the handle closed, the index untouched, and `ERR_SD_RW` raised. -/
theorem eject_then_log_no_reopen_cex :
    (ejectCmd ⟨some ⟨2, 100⟩, 3, 0⟩).file = none ∧
    (ejectCmd ⟨some ⟨2, 100⟩, 3, 0⟩).logIdx = 3 ∧
    (logOnceSD true 50 2048 true 0 29 (ejectCmd ⟨some ⟨2, 100⟩, 3, 0⟩)).file = none ∧
    (logOnceSD true 50 2048 true 0 29 (ejectCmd ⟨some ⟨2, 100⟩, 3, 0⟩)).logIdx = 3 ∧
    (logOnceSD true 50 2048 true 0 29 (ejectCmd ⟨some ⟨2, 100⟩, 3, 0⟩)).errors &&& ERR_SD_RW ≠ 0 := by
  decide

/-- C4 (amended): eject flushes and closes the current handle without
opening a replacement; every subsequent acquisition leaves the handle
closed and the file index unchanged and raises the Storage-read-write
fault instead of reopening a log file on demand. -/
theorem eject_closes_without_reopen (s : SdState) (haveSD : Bool)
    (recLen maxB : Nat) (ok : Bool) (initSz hdr : Nat) :
    (ejectCmd s).file = none ∧
    (ejectCmd s).logIdx = s.logIdx ∧
    (ejectCmd s).errors = s.errors ∧
    (logOnceSD haveSD recLen maxB ok initSz hdr (ejectCmd s)).file = none ∧
    (logOnceSD haveSD recLen maxB ok initSz hdr (ejectCmd s)).logIdx = s.logIdx ∧
    (logOnceSD haveSD recLen maxB ok initSz hdr (ejectCmd s)).errors &&& ERR_SD_RW ≠ 0 := by
  have h32 : ∀ g : Nat, (g ||| ERR_SD_RW) &&& ERR_SD_RW ≠ 0 := by
    intro g
    unfold ERR_SD_RW
    rw [or_and_bit32]
    decide
  unfold ejectCmd logOnceSD
  cases haveSD <;> simp [h32]

/-! ## C8 — size-triggered rotation -/

/-- Invariant maintained by the logging code for the open file: its size
is still below the rotation threshold (any write reaching the threshold
rotates at once) and `logIdx` is one past the open file's index. -/
def SdInv (maxB : Nat) (s : SdState) : Prop :=
  ∀ f : FileInfo, s.file = some f → f.size < maxB ∧ s.logIdx = f.idx + 1

/-- Step equation: a successful write that reaches the threshold rotates
to a fresh file named from `logIdx`. -/
theorem logOnceSD_open_rotate (recLen maxB hdr : Nat) (s : SdState) (f : FileInfo)
    (hf : s.file = some f) (hge : maxB ≤ f.size + recLen) :
    logOnceSD true recLen maxB true 0 hdr s =
      { file := some ⟨s.logIdx, hdr⟩, logIdx := s.logIdx + 1,
        errors := clearBit (clearBit s.errors ERR_SD_FULL) ERR_SD_RW } := by
  simp [logOnceSD, rotateIfNeed, openNewLog, hf, hge]

/-- Step equation: a successful write below the threshold just appends. -/
theorem logOnceSD_open_append (recLen maxB hdr : Nat) (s : SdState) (f : FileInfo)
    (hf : s.file = some f) (hlt : f.size + recLen < maxB) :
    logOnceSD true recLen maxB true 0 hdr s =
      { file := some ⟨f.idx, f.size + recLen⟩, logIdx := s.logIdx,
        errors := clearBit s.errors ERR_SD_RW } := by
  simp [logOnceSD, rotateIfNeed, hf, Nat.not_le.mpr hlt]

/-- C8: writing a record that brings the open file's size to the threshold
makes the next write target a fresh file whose index is exactly one
greater, and the rotated-away file's final size exceeds the threshold by
less than that one record's length; moreover one successful acquisition
preserves the invariant that an open file is below the threshold, so this
bound holds at every rotation. -/
theorem rotation_bounds (maxB hdr recLen : Nat) (s : SdState) (f : FileInfo)
    (hInv : SdInv maxB s) (hhdr : hdr < maxB) (hf : s.file = some f) :
    SdInv maxB (logOnceSD true recLen maxB true 0 hdr s) ∧
    (maxB ≤ f.size + recLen →
      (logOnceSD true recLen maxB true 0 hdr s).file = some ⟨f.idx + 1, hdr⟩ ∧
      f.size + recLen < maxB + recLen) := by
  obtain ⟨hsz, hidx⟩ := hInv f hf
  by_cases hrot : maxB ≤ f.size + recLen
  · rw [logOnceSD_open_rotate recLen maxB hdr s f hf hrot]
    refine ⟨?_, fun _ => ⟨by rw [hidx], by omega⟩⟩
    intro g hg
    have hg2 : g = (⟨s.logIdx, hdr⟩ : FileInfo) := by
      simpa [eq_comm] using hg
    subst hg2
    exact ⟨hhdr, rfl⟩
  · rw [logOnceSD_open_append recLen maxB hdr s f hf (by omega)]
    refine ⟨?_, fun h => absurd h hrot⟩
    intro g hg
    have hg2 : g = (⟨f.idx, f.size + recLen⟩ : FileInfo) := by
      simpa [eq_comm] using hg
    subst hg2
    exact ⟨by show f.size + recLen < maxB; omega, by simp [hidx]⟩

/-- Witness for C8: a 2040-byte file with threshold 2048 receives a
40-byte record; rotation opens file index 1 and the closed file's 2080
bytes exceed the threshold by less than one record. -/
theorem rotation_bounds_witness :
    (SdInv 2048 ⟨some ⟨0, 2040⟩, 1, 0⟩ ∧ 29 < 2048 ∧
     (⟨some ⟨0, 2040⟩, 1, 0⟩ : SdState).file = some ⟨0, 2040⟩) ∧
    (SdInv 2048 (logOnceSD true 40 2048 true 0 29 ⟨some ⟨0, 2040⟩, 1, 0⟩) ∧
     (2048 ≤ 2040 + 40 →
       (logOnceSD true 40 2048 true 0 29 ⟨some ⟨0, 2040⟩, 1, 0⟩).file =
         some ⟨(⟨0, 2040⟩ : FileInfo).idx + 1, 29⟩ ∧
       (⟨0, 2040⟩ : FileInfo).size + 40 < 2048 + 40)) :=
  have hinv : SdInv 2048 ⟨some ⟨0, 2040⟩, 1, 0⟩ := by
    intro f hf
    have h : (⟨0, 2040⟩ : FileInfo) = f := by simpa using hf
    cases h
    exact ⟨by decide, by decide⟩
  ⟨⟨hinv, by decide, rfl⟩,
   rotation_bounds 2048 29 40 ⟨some ⟨0, 2040⟩, 1, 0⟩ ⟨0, 2040⟩ hinv (by decide) rfl⟩

/-! ## C5 — corrupt settings self-heal -/

/-- The integrity code ignores the stored code field itself. -/
theorem crc16_set_crc (s : Settings) (x : Nat) : crc16 { s with crc := x } = crc16 s := rfl

/-- C5: when the stored record's integrity code does not match the code
recomputed over the other fields, `loadEEPROM` (called at boot, where both
sensor globals are still `true`) yields exactly the hard-coded defaults —
interval 10 s, timeout 3 s, rotation threshold 2048 bytes, both sensors
enabled — writes that same record back to EEPROM, and the result passes
its own validation. -/
theorem load_corrupt_restores_defaults (stored : Settings)
    (h : crc16 stored ≠ stored.crc) :
    (loadEEPROM stored true true).cfg =
      { logMin := 10, toutSec := 3, maxBytes := 2048, enMask := 3, crc := 42306 } ∧
    (loadEEPROM stored true true).written = some (loadEEPROM stored true true).cfg ∧
    crc16 (loadEEPROM stored true true).cfg = (loadEEPROM stored true true).cfg.crc ∧
    (loadEEPROM stored true true).enBME = true ∧
    (loadEEPROM stored true true).enLUM = true := by
  unfold loadEEPROM
  rw [if_pos h]
  exact ⟨by decide, rfl, by decide, by decide, by decide⟩

/-- Witness for C5: the all-defaults record with its code zeroed out fails
validation and heals to the defaults. -/
theorem load_corrupt_restores_defaults_witness :
    crc16 ⟨10, 3, 2048, 3, 0⟩ ≠ (⟨10, 3, 2048, 3, 0⟩ : Settings).crc ∧
    (loadEEPROM ⟨10, 3, 2048, 3, 0⟩ true true).cfg =
      { logMin := 10, toutSec := 3, maxBytes := 2048, enMask := 3, crc := 42306 } :=
  ⟨by decide, (load_corrupt_restores_defaults ⟨10, 3, 2048, 3, 0⟩ (by decide)).1⟩

/-! ## C6 — long-press rules -/

/-- Counterexample to C6 as stated: a press whose `millis()` timestamp is
exactly `0` (the boot instant) leaves `tV = 0`, which the release edge
reads as "no press pending", so a 2500 ms hold raises no flag at all. -/
theorem longpress_at_boot_instant_cex :
    flagsOf (pressRelease Button.green 0 2500
      ⟨0, 0, Mode.standard, false, false, false, false⟩) =
      (false, false, false, false) := by
  decide

/-- C6 (amended): for a press/release pair with held duration `d` and a
nonzero recorded press timestamp (a press at the instant `millis() = 0`
raises no flag), no transition flag is raised when `d < 2000` ms, and for
`d ≥ 2000` ms exactly one flag is raised by the rule table: green in
Economic requests Standard, green elsewhere requests Economic, red in
Maintenance requests quit-maintenance, red elsewhere requests
Maintenance. -/
theorem longpress_rules (b : Button) (t0 d : Nat) (s : IsrState)
    (h0 : s.fStd = false ∧ s.fEco = false ∧ s.fMaint = false ∧ s.fQuitM = false)
    (ht0 : t0 % U32 ≠ 0) (hd : d < U32) :
    (d < 2000 → flagsOf (pressRelease b t0 d s) = (false, false, false, false)) ∧
    (2000 ≤ d →
      flagsOf (pressRelease b t0 d s) =
        match b with
        | Button.green =>
            if s.modeCur = Mode.economique then (true, false, false, false)
            else (false, true, false, false)
        | Button.red =>
            if s.modeCur = Mode.maintenance then (false, false, false, true)
            else (false, false, true, false)) := by
  obtain ⟨h1, h2, h3, h4⟩ := h0
  have helapsed : sub32 (t0 + d) (t0 % U32) = d := sub32_elapsed t0 d hd
  cases b
  · constructor
    · intro hlt
      have hcond : ¬(t0 % U32 ≠ 0 ∧ sub32 (t0 + d) (t0 % U32) ≥ 2000) := by
        rw [helapsed]
        omega
      simp [pressRelease, isrV, hcond, flagsOf, h1, h2, h3, h4]
    · intro hge
      have hcond : t0 % U32 ≠ 0 ∧ sub32 (t0 + d) (t0 % U32) ≥ 2000 := by
        rw [helapsed]
        exact ⟨ht0, hge⟩
      by_cases hm : s.modeCur = Mode.economique
      · simp [pressRelease, isrV, hcond, hm, flagsOf, h1, h2, h3, h4]
      · simp [pressRelease, isrV, hcond, hm, flagsOf, h1, h2, h3, h4]
  · constructor
    · intro hlt
      have hcond : ¬(t0 % U32 ≠ 0 ∧ sub32 (t0 + d) (t0 % U32) ≥ 2000) := by
        rw [helapsed]
        omega
      simp [pressRelease, isrR, hcond, flagsOf, h1, h2, h3, h4]
    · intro hge
      have hcond : t0 % U32 ≠ 0 ∧ sub32 (t0 + d) (t0 % U32) ≥ 2000 := by
        rw [helapsed]
        exact ⟨ht0, hge⟩
      by_cases hm : s.modeCur = Mode.maintenance
      · simp [pressRelease, isrR, hcond, hm, flagsOf, h1, h2, h3, h4]
      · simp [pressRelease, isrR, hcond, hm, flagsOf, h1, h2, h3, h4]

/-- Witness for C6: a 2500 ms green press at `t0 = 100` in Standard raises
exactly the Economic request. -/
theorem longpress_rules_witness :
    ((false = false ∧ false = false ∧ false = false ∧ false = false) ∧
     (100 : Nat) % U32 ≠ 0 ∧ (2500 : Nat) < U32) ∧
    ((2500 : Nat) < 2000 →
      flagsOf (pressRelease Button.green 100 2500
        ⟨0, 0, Mode.standard, false, false, false, false⟩) =
        (false, false, false, false)) ∧
    ((2000 : Nat) ≤ 2500 →
      flagsOf (pressRelease Button.green 100 2500
        ⟨0, 0, Mode.standard, false, false, false, false⟩) =
        if (Mode.standard : Mode) = Mode.economique then (true, false, false, false)
        else (false, true, false, false)) :=
  ⟨⟨⟨rfl, rfl, rfl, rfl⟩, by decide, by decide⟩,
   longpress_rules Button.green 100 2500 ⟨0, 0, Mode.standard, false, false, false, false⟩
     ⟨rfl, rfl, rfl, rfl⟩ (by decide) (by decide)⟩

/-! ## C7 — plausibility envelopes -/

/-- A channel trips its envelope test exactly when it carries a value
strictly outside `[lo, hi]`; an invalid (`NAN`) channel never does. -/
theorem outOfRange_iff (v : Option ℚ) (lo hi : ℚ) :
    outOfRange v lo hi = true ↔ ∃ x, v = some x ∧ (x < lo ∨ hi < x) := by
  cases v <;> simp [outOfRange]

/-- C7: in an acquisition cycle, a disabled or absent BME or a disabled
light channel reads as the invalid marker; the incoherence flag is raised
exactly when some carried value lies outside its envelope — temperature
`[-40, 85]`, humidity `[0, 100]`, pressure `[300, 1100]`, light
`[0, 1023]` — so invalid channels never contribute; and after the cycle's
error update `ERR_INCOH` is present in the register iff that flag was
raised, hence an all-in-range cycle clears it. -/
theorem plausibility_envelope (bmePresent enBME enLUM : Bool) (t h p l : ℚ) (g : Nat) :
    ((bmePresent && enBME) = false →
      (acquireReadings bmePresent enBME enLUM t h p l).t = none ∧
      (acquireReadings bmePresent enBME enLUM t h p l).h = none ∧
      (acquireReadings bmePresent enBME enLUM t h p l).p = none) ∧
    (enLUM = false → (acquireReadings bmePresent enBME enLUM t h p l).l = none) ∧
    (incohOf (acquireReadings bmePresent enBME enLUM t h p l) = true ↔
      ((∃ x, (acquireReadings bmePresent enBME enLUM t h p l).t = some x ∧
         (x < -40 ∨ 85 < x)) ∨
       (∃ x, (acquireReadings bmePresent enBME enLUM t h p l).h = some x ∧
         (x < 0 ∨ 100 < x)) ∨
       (∃ x, (acquireReadings bmePresent enBME enLUM t h p l).p = some x ∧
         (x < 300 ∨ 1100 < x)) ∨
       (∃ x, (acquireReadings bmePresent enBME enLUM t h p l).l = some x ∧
         (x < 0 ∨ 1023 < x)))) ∧
    (logOnceErrors enBME bmePresent (acquireReadings bmePresent enBME enLUM t h p l) g
        &&& ERR_INCOH ≠ 0 ↔
      incohOf (acquireReadings bmePresent enBME enLUM t h p l) = true) := by
  refine ⟨?_, ?_, ?_, ?_⟩
  · intro hba
    cases hb : bmePresent <;> cases he : enBME <;>
      simp_all [acquireReadings, readBME]
  · intro hl
    simp [acquireReadings, readLUM, hl]
  · unfold incohOf
    simp only [Bool.or_eq_true]
    rw [outOfRange_iff, outOfRange_iff, outOfRange_iff, outOfRange_iff,
      or_assoc, or_assoc]
  · unfold logOnceErrors
    by_cases hi : incohOf (acquireReadings bmePresent enBME enLUM t h p l) = true
    · rw [if_pos hi]
      unfold ERR_INCOH
      rw [or_and_bit8]
      simp [hi]
    · rw [if_neg hi]
      unfold ERR_INCOH
      rw [clearBit_and8]
      simp [hi]

/-! ## C9 / C10 — loop-pass helpers -/

/-- Draining characters never changes the mode, and leaves `lastCmdMs`
refreshed to the pass's `millis()` exactly when at least one character was
received. -/
theorem feedChars_mode_last (cs : List Char) (now : Nat) (ls : LoopState) :
    (feedChars cs now ls).1.mode = ls.mode ∧
    (feedChars cs now ls).1.lastCmdMs =
      if cs = [] then ls.lastCmdMs else now % U32 := by
  induction cs generalizing ls with
  | nil => simp [feedChars]
  | cons c cs ih =>
      have h := ih { ls with
        buf := (handleCmdChar c ls.buf ls.cmd).1,
        cmd := (handleCmdChar c ls.buf ls.cmd).2.1,
        lastCmdMs := now % U32 }
      simp only [feedChars]
      refine ⟨h.1, ?_⟩
      rw [h.2]
      split <;> simp

/-- The timeout step of a loop pass does not touch the command state or
the emitted effects. -/
theorem loopPass_cmd (chars : List Char) (now : Nat) (ls : LoopState) :
    (loopPass chars now ls).1.cmd = (feedChars chars now ls).1.cmd ∧
    (loopPass chars now ls).2 = (feedChars chars now ls).2 := by
  unfold loopPass
  by_cases hcond : (feedChars chars now ls).1.mode = Mode.configuration ∧
      sub32 now (feedChars chars now ls).1.lastCmdMs > 30000
  · simp [hcond]
  · simp [hcond]

/-- The mode after one loop pass: Standard is forced exactly when the pass
started in Configuration, received no character, and more than 30000 ms
elapsed since `lastCmdMs`. -/
theorem loopPass_mode (chars : List Char) (now : Nat) (ls : LoopState) :
    (loopPass chars now ls).1.mode =
      if ls.mode = Mode.configuration ∧ chars = [] ∧ sub32 now ls.lastCmdMs > 30000
      then Mode.standard else ls.mode := by
  have hm := (feedChars_mode_last chars now ls).1
  have hl := (feedChars_mode_last chars now ls).2
  unfold loopPass
  by_cases hcond : (feedChars chars now ls).1.mode = Mode.configuration ∧
      sub32 now (feedChars chars now ls).1.lastCmdMs > 30000
  · have hchars : chars = [] := by
      by_contra hne
      rw [if_neg hne] at hl
      have h0 : sub32 now (feedChars chars now ls).1.lastCmdMs = 0 := by
        rw [hl, sub32_mod_self]
      rw [h0] at hcond
      exact absurd hcond.2 (by omega)
    have hrhs : ls.mode = Mode.configuration ∧ chars = [] ∧
        sub32 now ls.lastCmdMs > 30000 := by
      refine ⟨by rw [← hm]; exact hcond.1, hchars, ?_⟩
      rw [if_pos hchars] at hl
      rw [← hl]
      exact hcond.2
    rw [if_pos hrhs]
    simp [hcond]
  · have hrhs : ¬(ls.mode = Mode.configuration ∧ chars = [] ∧
        sub32 now ls.lastCmdMs > 30000) := by
      rintro ⟨h1, h2, h3⟩
      apply hcond
      constructor
      · rw [hm]; exact h1
      · rw [if_pos h2] at hl
        rw [hl]
        exact h3
    rw [if_neg hrhs]
    dsimp only
    split
    · rename_i hgot
      exact absurd hgot hcond
    · exact hm

/-- Feeding one newline-terminated line into an empty command buffer
dispatches exactly that line. -/
theorem feedChars_line (now : Nat) (mode : Mode) (cmd0 : CmdState) :
    ∀ (line b : List Char) (lastMs : Nat), (∀ c ∈ line, ¬c = '\n' ∧ ¬c = '\r') →
      b.length + line.length ≤ 95 →
      feedChars (line ++ ['\n']) now ⟨mode, lastMs, b, cmd0⟩ =
        (⟨mode, now % U32, [], (handleCmdLine (b ++ line) cmd0).1⟩,
         (handleCmdLine (b ++ line) cmd0).2) := by
  intro line
  induction line with
  | nil =>
      intro b lastMs _ _
      simp [feedChars, handleCmdChar]
  | cons c cs ih =>
      intro b lastMs hok hlen
      have hc := hok c (by simp)
      have hlt : b.length < 95 := by
        simp at hlen
        omega
      have hstep : handleCmdChar c b cmd0 = (b ++ [c], cmd0, []) := by
        unfold handleCmdChar
        rw [if_neg hc.2, if_neg hc.1, if_pos hlt]
      have hih := ih (b ++ [c]) (now % U32)
        (fun d hd => hok d (by simp [hd]))
        (by simp at hlen ⊢; omega)
      simp only [List.cons_append, feedChars, hstep]
      simp only [List.nil_append, List.append_eq]
      rw [hih]
      simp

/-! ## C9 — Configuration inactivity timeout -/

/-- Counterexample to C9 as stated: the inactivity timer is reset by every
received character, not by accepted commands.  Two passes, at 29000 ms and
58000 ms, each delivering one character `X` that completes no command
(no acknowledgment or effect is ever produced), keep the controller in
Configuration even though no command has been accepted for 58000 ms. -/
theorem cfg_timeout_not_command_based_cex :
    (loopPass ['X'] 29000
      ⟨Mode.configuration, 0, [], ⟨⟨10, 3, 2048, 3, 42306⟩, true, true, none, true⟩⟩).2
        = [] ∧
    (loopPass ['X'] 58000
      (loopPass ['X'] 29000
        ⟨Mode.configuration, 0, [], ⟨⟨10, 3, 2048, 3, 42306⟩, true, true, none, true⟩⟩).1).2
        = [] ∧
    (loopPass ['X'] 58000
      (loopPass ['X'] 29000
        ⟨Mode.configuration, 0, [], ⟨⟨10, 3, 2048, 3, 42306⟩, true, true, none, true⟩⟩).1).1.mode
        = Mode.configuration := by
  decide

/-- C9 (amended): in Configuration, a loop pass forces the mode back to
Standard exactly when the pass receives no serial character and more than
30000 ms have elapsed since the last received character (any received
character resets the timer, whether or not it completes an accepted
command); the check runs once per pass. -/
theorem cfg_timeout_on_serial_silence (chars : List Char) (now : Nat) (ls : LoopState)
    (hmode : ls.mode = Mode.configuration) :
    ((loopPass chars now ls).1.mode = Mode.standard ↔
      chars = [] ∧ sub32 now ls.lastCmdMs > 30000) := by
  rw [loopPass_mode]
  by_cases hc : chars = [] <;> by_cases ht : sub32 now ls.lastCmdMs > 30000 <;>
    simp [hmode, hc, ht]

/-- Witness for C9: 30001 ms of silence since `lastCmdMs = 0` forces
Standard. -/
theorem cfg_timeout_on_serial_silence_witness :
    (⟨Mode.configuration, 0, [],
      ⟨⟨10, 3, 2048, 3, 42306⟩, true, true, none, true⟩⟩ : LoopState).mode
        = Mode.configuration ∧
    ((loopPass [] 30001
      ⟨Mode.configuration, 0, [],
        ⟨⟨10, 3, 2048, 3, 42306⟩, true, true, none, true⟩⟩).1.mode = Mode.standard ↔
      ([] : List Char) = [] ∧ sub32 30001 0 > 30000) :=
  ⟨rfl,
   cfg_timeout_on_serial_silence [] 30001
     ⟨Mode.configuration, 0, [], ⟨⟨10, 3, 2048, 3, 42306⟩, true, true, none, true⟩⟩ rfl⟩

/-! ## C10 — commands in every mode -/

/-- Dispatch equation for a `LOG_INTERVAL=42` line. -/
theorem handleCmdLine_logInterval (st : CmdState) :
    handleCmdLine "LOG_INTERVAL=42".toList st =
      (persist { st with cfg := { st.cfg with logMin := 42 } }
        { st.cfg with logMin := 42 },
       [CmdEffect.msg "OK LOG_INTERVAL"]) := rfl

/-- Dispatch equation for a `CAPTEUR=BME:on` line. -/
theorem handleCmdLine_capteurOn (st : CmdState) :
    handleCmdLine "CAPTEUR=BME:on".toList st =
      (persist { st with enBME := true } { st with enBME := true }.cfg,
       [CmdEffect.msg "OK CAPTEUR"]) := rfl

/-- C10: a complete command line is dispatched by the loop's serial drain
whatever the active mode is — the drain and the dispatcher never consult
the mode.  Starting from an empty buffer in any mode, a
`LOG_INTERVAL=42` line sets the interval to 42, persists a record that
passes validation, and acknowledges; a `CAPTEUR=BME:on` line enables the
BME sensor, persists, and acknowledges. -/
theorem commands_any_mode (m : Mode) (now : Nat) (ls : LoopState)
    (hbuf : ls.buf = []) (hmode : ls.mode = m) :
    ((loopPass "LOG_INTERVAL=42\n".toList now ls).1.cmd.cfg.logMin = 42 ∧
     (loopPass "LOG_INTERVAL=42\n".toList now ls).1.cmd.eeprom =
       some (loopPass "LOG_INTERVAL=42\n".toList now ls).1.cmd.cfg ∧
     crc16 (loopPass "LOG_INTERVAL=42\n".toList now ls).1.cmd.cfg =
       (loopPass "LOG_INTERVAL=42\n".toList now ls).1.cmd.cfg.crc ∧
     CmdEffect.msg "OK LOG_INTERVAL" ∈ (loopPass "LOG_INTERVAL=42\n".toList now ls).2) ∧
    ((loopPass "CAPTEUR=BME:on\n".toList now ls).1.cmd.enBME = true ∧
     (loopPass "CAPTEUR=BME:on\n".toList now ls).1.cmd.eeprom =
       some (loopPass "CAPTEUR=BME:on\n".toList now ls).1.cmd.cfg ∧
     CmdEffect.msg "OK CAPTEUR" ∈ (loopPass "CAPTEUR=BME:on\n".toList now ls).2) := by
  obtain ⟨mode, lastMs, buf, cmd⟩ := ls
  dsimp only at hbuf
  subst hbuf
  have h1 : feedChars "LOG_INTERVAL=42\n".toList now ⟨mode, lastMs, [], cmd⟩ =
      (⟨mode, now % U32, [], (handleCmdLine "LOG_INTERVAL=42".toList cmd).1⟩,
       (handleCmdLine "LOG_INTERVAL=42".toList cmd).2) := by
    rw [show "LOG_INTERVAL=42\n".toList = "LOG_INTERVAL=42".toList ++ ['\n'] from rfl]
    have := feedChars_line now mode cmd "LOG_INTERVAL=42".toList [] lastMs
      (by decide) (by decide)
    simpa using this
  have h2 : feedChars "CAPTEUR=BME:on\n".toList now ⟨mode, lastMs, [], cmd⟩ =
      (⟨mode, now % U32, [], (handleCmdLine "CAPTEUR=BME:on".toList cmd).1⟩,
       (handleCmdLine "CAPTEUR=BME:on".toList cmd).2) := by
    rw [show "CAPTEUR=BME:on\n".toList = "CAPTEUR=BME:on".toList ++ ['\n'] from rfl]
    have := feedChars_line now mode cmd "CAPTEUR=BME:on".toList [] lastMs
      (by decide) (by decide)
    simpa using this
  have e1 := loopPass_cmd "LOG_INTERVAL=42\n".toList now ⟨mode, lastMs, [], cmd⟩
  have e2 := loopPass_cmd "CAPTEUR=BME:on\n".toList now ⟨mode, lastMs, [], cmd⟩
  constructor
  · rw [e1.1, e1.2, h1, handleCmdLine_logInterval]
    exact ⟨rfl, rfl, rfl, by simp⟩
  · rw [e2.1, e2.2, h2, handleCmdLine_capteurOn]
    exact ⟨rfl, rfl, by simp⟩

/-- Witness for C10: in Maintenance mode (not Configuration), the
`LOG_INTERVAL=42` line still takes effect. -/
theorem commands_any_mode_witness :
    (⟨Mode.maintenance, 0, [],
      ⟨⟨10, 3, 2048, 3, 42306⟩, true, true, none, true⟩⟩ : LoopState).buf = [] ∧
    (⟨Mode.maintenance, 0, [],
      ⟨⟨10, 3, 2048, 3, 42306⟩, true, true, none, true⟩⟩ : LoopState).mode
        = Mode.maintenance ∧
    (loopPass "LOG_INTERVAL=42\n".toList 5
      ⟨Mode.maintenance, 0, [],
        ⟨⟨10, 3, 2048, 3, 42306⟩, true, true, none, true⟩⟩).1.cmd.cfg.logMin = 42 :=
  ⟨rfl, rfl,
   (commands_any_mode Mode.maintenance 5
     ⟨Mode.maintenance, 0, [], ⟨⟨10, 3, 2048, 3, 42306⟩, true, true, none, true⟩⟩
     rfl rfl).1.1⟩

end WWW
